import Mathlib

/-!
# Verification of the LoudMouth push-to-talk dictation core

Shallow embedding of the model registry (`model_manager.py`), the settings
store (`settings_manager.py`), the capture / transcription pipeline
(`audio_handler.py`) and the hotkey gate (`hotkey_manager.py`), together with
theorems settling the specified behavioural claims.

All definitions are translated directly from the Python source; effects
(status callbacks, transcript callbacks, the filesystem, the temp-file
descriptor) are made explicit as returned values or threaded state.
-/

/- ============================================================ -/
/- DEFINITIONS -/
/- ============================================================ -/

/- ---------- model_manager.py ---------- -/

/-- `os.path.join(dir, name)` for the flat joins used by `ModelManager`. -/
def pathJoin (dir name : String) : String := dir ++ "/" ++ name

/-- The two directories `ModelManager.__init__` fixes:
`local_models_dir` (bundled `models/` next to the script) and
`cache_dir` (`~/.cache/whisper`). -/
structure Dirs where
  local_models_dir : String
  cache_dir : String
  deriving DecidableEq

/-- Candidate path `local_path` of `is_model_available` / `get_model_path`
(model_manager.py lines 182, 192). -/
def local_path (d : Dirs) (model_size : String) : String :=
  pathJoin d.local_models_dir (model_size ++ ".pt")

/-- Candidate path `cache_path` (model_manager.py lines 183, 193). -/
def cache_path (d : Dirs) (model_size : String) : String :=
  pathJoin d.cache_dir (model_size ++ ".pt")

/-- Candidate path `cache_path_v3` (model_manager.py lines 184, 194). -/
def cache_path_v3 (d : Dirs) (model_size : String) : String :=
  pathJoin d.cache_dir (model_size ++ "-v3.pt")

/-- `ModelManager.is_model_available` (model_manager.py lines 179-188).
The filesystem is embedded as the list `fs` of existing file paths, so
`os.path.exists p` becomes `fs.contains p`. -/
def is_model_available (fs : List String) (d : Dirs) (model_size : String) : Bool :=
  fs.contains (local_path d model_size) ||
  fs.contains (cache_path d model_size) ||
  fs.contains (cache_path_v3 d model_size)

/-- `ModelManager.get_model_path` (model_manager.py lines 190-202). -/
def get_model_path (fs : List String) (d : Dirs) (model_size : String) : Option String :=
  if fs.contains (local_path d model_size) then some (local_path d model_size)
  else if fs.contains (cache_path d model_size) then some (cache_path d model_size)
  else if fs.contains (cache_path_v3 d model_size) then some (cache_path_v3 d model_size)
  else none

/- ---------- settings_manager.py ---------- -/

/-- The numeric fields of the settings store touched by the clamping
setters (settings_manager.py).  Python floats are embedded as rationals,
Python ints as integers. -/
structure Settings where
  type_delay : ℚ
  whisper_temperature : ℚ
  whisper_beam_size : ℤ
  whisper_no_speech_threshold : ℚ
  deriving DecidableEq

/-- `SettingsManager.set_type_delay` (settings_manager.py lines 152-155):
`max(0.0, min(5.0, delay))`. -/
def set_type_delay (s : Settings) (delay : ℚ) : Settings :=
  { s with type_delay := max 0 (min 5 delay) }

/-- `SettingsManager.set_whisper_temperature` (lines 263-266):
`max(0.0, min(1.0, temperature))`. -/
def set_whisper_temperature (s : Settings) (temperature : ℚ) : Settings :=
  { s with whisper_temperature := max 0 (min 1 temperature) }

/-- `SettingsManager.set_whisper_beam_size` (lines 281-284):
`max(1, min(10, beam_size))`. -/
def set_whisper_beam_size (s : Settings) (beam_size : ℤ) : Settings :=
  { s with whisper_beam_size := max 1 (min 10 beam_size) }

/-- `SettingsManager.set_whisper_no_speech_threshold` (lines 290-293):
`max(0.0, min(1.0, threshold))`. -/
def set_whisper_no_speech_threshold (s : Settings) (threshold : ℚ) : Settings :=
  { s with whisper_no_speech_threshold := max 0 (min 1 threshold) }

/- ---------- audio_handler.py : model lifecycle ---------- -/

/-- Outcome of the `_load_whisper_model` attempt inside `reload_model`:
either the whisper library returns a fresh model instance (embedded as a
`Nat` handle id) or loading raises; `_load_whisper_model` catches the
exception itself (`_handle_model_error`) and leaves `whisper_model = None`. -/
inductive LoadOutcome where
  | success (m : ℕ)
  | failure
  deriving DecidableEq

/-- Observable model-lifecycle events, used to order the release of the
old handle against the readiness of the new one. -/
inductive MEvent where
  | released (h : ℕ)
  | ready (m : ℕ)
  deriving DecidableEq

/-- `AudioHandler.reload_model` (audio_handler.py lines 124-146) acting on
the `whisper_model` slot.  The code first deletes the current model
(`del self.whisper_model; self.whisper_model = None`, lines 132-134) and
only then runs `_load_whisper_model`; a load failure is caught and leaves
the slot `None`.  Returns the new slot value and the event trace. -/
def reload_model (prev : Option ℕ) (out : LoadOutcome) : Option ℕ × List MEvent :=
  let rel : List MEvent := match prev with
    | some h => [MEvent.released h]
    | none => []
  match out with
  | LoadOutcome.success m => (some m, rel ++ [MEvent.ready m])
  | LoadOutcome.failure => (none, rel)

/- ---------- audio_handler.py : recording session ---------- -/

/-- The recording-session fields of `AudioHandler`: the `is_recording`
flag, the `is_muted` flag, and the number of capture threads/streams
opened so far (each `start_recording` success spawns one
`_record_audio` thread, which opens one device stream). -/
structure CaptureState where
  is_recording : Bool
  is_muted : Bool
  streams : ℕ
  deriving DecidableEq

/-- `AudioHandler.start_recording` (audio_handler.py lines 199-217).
Returns the boolean result, the successor state, and the status messages
emitted through `_update_status`. -/
def start_recording (s : CaptureState) : Bool × CaptureState × List String :=
  if s.is_recording || s.is_muted then
    (false, s, if s.is_muted then ["Microphone is muted"] else [])
  else
    (true, { s with is_recording := true, streams := s.streams + 1 }, ["Recording..."])

/- ---------- audio_handler.py : transcription pipeline ---------- -/

/-- The scratch-file fields of `AudioHandler`: `temp_fd`, `temp_file_path`
(scratch files are identified by a `Nat` id) and the set of scratch files
currently existing on disk. -/
structure PipeState where
  temp_fd : Option ℕ
  temp_file_path : Option ℕ
  disk : List ℕ
  deriving DecidableEq

/-- Status and transcript callbacks fired during one pipeline run. -/
structure PipeOut where
  statuses : List String
  transcripts : List String
  deriving DecidableEq

/-- `AudioHandler._cleanup_temp_file` (audio_handler.py lines 407-421):
closes `temp_fd`, unlinks `temp_file_path` if it exists, clears both. -/
def cleanup_temp_file (s : PipeState) : PipeState :=
  { temp_fd := none
    temp_file_path := none
    disk := match s.temp_file_path with
      | some p => s.disk.erase p
      | none => s.disk }

/-- Python's `str.strip()` (as applied to `result["text"]` at line 329):
drops leading and trailing whitespace. -/
def pyStrip (s : String) : String :=
  String.mk (((s.data.dropWhile Char.isWhitespace).reverse.dropWhile Char.isWhitespace).reverse)

/-- Outcome of the `whisper_model.transcribe` call: the raw text of the
result, or an exception. -/
inductive InferOutcome where
  | ok (raw : String)
  | err
  deriving DecidableEq

/-- What happens after `tempfile.mkstemp` inside `_save_audio_file`:
either writing the WAV raises (`writeFail`, caught by the `except` at
line 284) or the write succeeds and `_transcribe_audio` runs with the
given inference outcome. -/
inductive SaveRun where
  | writeFail
  | infer (out : InferOutcome)
  deriving DecidableEq

/-- `AudioHandler._transcribe_audio` (audio_handler.py lines 287-350).
`hasModel` embeds `self.whisper_model` being non-`None`; the guard also
checks `self.temp_file_path`.  Every branch — early return, success,
empty text, exception — passes through the `finally: _cleanup_temp_file`. -/
def transcribe_audio (hasModel : Bool) (inf : InferOutcome) (s : PipeState) :
    PipeState × PipeOut :=
  if !hasModel || s.temp_file_path.isNone then
    (cleanup_temp_file s, ⟨["No model or audio file"], []⟩)
  else
    match inf with
    | InferOutcome.err => (cleanup_temp_file s, ⟨["Transcription error"], []⟩)
    | InferOutcome.ok raw =>
      let text := pyStrip raw
      if text = "" then (cleanup_temp_file s, ⟨["No speech detected"], []⟩)
      else (cleanup_temp_file s, ⟨["Transcription ready"], [text]⟩)

/-- `AudioHandler._save_audio_file` (audio_handler.py lines 268-285):
cleans up any previous scratch file, creates a fresh one with
`tempfile.mkstemp` (file id `newf`, recorded in `temp_fd`,
`temp_file_path` and on disk), then writes the WAV and calls
`_transcribe_audio`; a write failure is caught and only reported. -/
def save_audio_file (newf : ℕ) (run : SaveRun) (hasModel : Bool) (s : PipeState) :
    PipeState × PipeOut :=
  let s1 := cleanup_temp_file s
  let s2 : PipeState := { temp_fd := some newf, temp_file_path := some newf, disk := newf :: s1.disk }
  match run with
  | SaveRun.writeFail => (s2, ⟨["Save audio error"], []⟩)
  | SaveRun.infer inf => transcribe_audio hasModel inf s2

/-- The tail of `AudioHandler._record_audio` (audio_handler.py lines
243-253): the read loop has produced `frames`; `_save_audio_file` is
invoked only when `frames` is non-empty (`if frames:`). -/
def record_audio (frames : List (List ℕ)) (newf : ℕ) (run : SaveRun) (hasModel : Bool)
    (s : PipeState) : PipeState × PipeOut :=
  if frames.isEmpty then (s, ⟨[], []⟩)
  else save_audio_file newf run hasModel s

/-- Whether a pipeline run reaches the `whisper_model.transcribe` call:
it needs a non-empty frame list (`_record_audio`), a successful WAV write
(`_save_audio_file`) and a loaded model (`_transcribe_audio` guard). -/
def inference_invoked (frames : List (List ℕ)) (run : SaveRun) (hasModel : Bool) : Bool :=
  !frames.isEmpty &&
    (match run with
      | SaveRun.writeFail => false
      | SaveRun.infer _ => hasModel)

/- ---------- audio_handler.py : device enumeration ---------- -/

/-- One entry of PyAudio's device table, as read through
`get_device_info_by_index`. -/
structure DeviceInfo where
  name : String
  maxInputChannels : ℕ
  deriving DecidableEq

/-- One entry of the list `get_audio_devices` returns. -/
structure Device where
  index : ℕ
  name : String
  channels : ℕ
  deriving DecidableEq

/-- The enumeration loop of `get_audio_devices` (audio_handler.py lines
167-174), starting at device index `i`.  The OS is embedded as the info
list `infos`; `failAfter = some k` means the `(k+1)`-st
`get_device_info_by_index` call raises (`none`: no call raises).  Returns
the devices collected before any failure and whether a failure occurred. -/
def enum_from (infos : List DeviceInfo) (i : ℕ) (failAfter : Option ℕ) :
    List Device × Bool :=
  match infos with
  | [] => ([], false)
  | info :: rest =>
    match failAfter with
    | some 0 => ([], true)
    | some (k + 1) =>
      let r := enum_from rest (i + 1) (some k)
      if info.maxInputChannels > 0 then
        (⟨i, info.name, info.maxInputChannels⟩ :: r.1, r.2)
      else r
    | none =>
      let r := enum_from rest (i + 1) none
      if info.maxInputChannels > 0 then
        (⟨i, info.name, info.maxInputChannels⟩ :: r.1, r.2)
      else r

/-- `AudioHandler.get_audio_devices` (audio_handler.py lines 161-180).
`init_ok` embeds whether the `pyaudio.PyAudio()` constructor succeeds.
Any exception is caught, reported via `_update_status`, and the devices
collected so far are returned. -/
def get_audio_devices (init_ok : Bool) (infos : List DeviceInfo) (failAfter : Option ℕ) :
    List Device × List String :=
  if !init_ok then ([], ["Device enumeration error"])
  else
    let r := enum_from infos 0 failAfter
    (r.1, if r.2 then ["Device enumeration error"] else [])

/-- The input-capable devices of `infos` in OS enumeration order, indices
starting at `i` — the sequence the spec says `listDevices` returns. -/
def input_devices_from (infos : List DeviceInfo) (i : ℕ) : List Device :=
  match infos with
  | [] => []
  | info :: rest =>
    if info.maxInputChannels > 0 then
      ⟨i, info.name, info.maxInputChannels⟩ :: input_devices_from rest (i + 1)
    else input_devices_from rest (i + 1)

/- ---------- hotkey_manager.py ---------- -/

/-- Physical keys as delivered by the pynput keyboard hook: the special
keys the manager distinguishes, printable-character keys (which carry a
`char` attribute), and any other special key (no `char` attribute). -/
inductive PKey where
  | ctrl_l | ctrl_r | alt_l | alt_r | shift_l | shift_r | space | enter
  | char (c : Char)
  | otherKey (n : ℕ)
  deriving DecidableEq

/-- Physical mouse buttons as delivered by the pynput mouse hook. -/
inductive MButton where
  | left | right | middle | x1 | x2 | otherBtn (n : ℕ)
  deriving DecidableEq

/-- The persisted `current_hotkey` dict shapes the manager handles:
`{'type':'key','key':k}`, `{'type':'key','combo':{'modifier':m,'key':k}}`
and `{'type':'mouse','button':b}`. -/
inductive HotkeyConfig where
  | singleKey (key : String)
  | comboKey (modifier : String) (key : String)
  | mouseBtn (button : String)
  deriving DecidableEq

/-- Python's `str.lower()` on the key names compared by `_key_matches`. -/
def pyLower (s : String) : String :=
  String.mk (s.data.map Char.toLower)

/-- `HotkeyManager._key_matches` (hotkey_manager.py lines 147-161):
compares a physical key against the configured key name; a printable key
matches by case-insensitive character comparison
(`key.char.lower() == target_key.lower()`). -/
def key_matches (key : PKey) (target_key : String) : Bool :=
  if target_key = "space" then key == PKey.space
  else if target_key = "ctrl" then key == PKey.ctrl_l || key == PKey.ctrl_r
  else if target_key = "alt" then key == PKey.alt_l || key == PKey.alt_r
  else if target_key = "shift" then key == PKey.shift_l || key == PKey.shift_r
  else if target_key = "enter" then key == PKey.enter
  else
    match key with
    | PKey.char c => pyLower (String.mk [c]) == pyLower target_key
    | _ => false

/-- `HotkeyManager._is_modifier_pressed` (lines 163-171): whether either
variant of the configured modifier is in `pressed_keys`. -/
def is_modifier_pressed (modifier : String) (pressed_keys : List PKey) : Bool :=
  if modifier = "ctrl" then
    pressed_keys.contains PKey.ctrl_l || pressed_keys.contains PKey.ctrl_r
  else if modifier = "alt" then
    pressed_keys.contains PKey.alt_l || pressed_keys.contains PKey.alt_r
  else if modifier = "shift" then
    pressed_keys.contains PKey.shift_l || pressed_keys.contains PKey.shift_r
  else false

/-- `HotkeyManager._matches_key` (lines 124-145) combined with the
`current_hotkey['type'] == 'key'` guard of the key handlers: for a combo
the main key must match and the modifier must currently be held. -/
def matches_key (cfg : HotkeyConfig) (pressed_keys : List PKey) (key : PKey) : Bool :=
  match cfg with
  | HotkeyConfig.comboKey m k =>
    if key_matches key k then is_modifier_pressed m pressed_keys else false
  | HotkeyConfig.singleKey k => key_matches key k
  | HotkeyConfig.mouseBtn _ => false

/-- `HotkeyManager._matches_mouse_button` (lines 173-192) combined with the
`current_hotkey['type'] == 'mouse'` guard of `_on_mouse_click`. -/
def matches_mouse_button (cfg : HotkeyConfig) (button : MButton) : Bool :=
  match cfg with
  | HotkeyConfig.mouseBtn b =>
    if b = "left" then button == MButton.left
    else if b = "right" then button == MButton.right
    else if b = "middle" then button == MButton.middle
    else if b = "x1" then button == MButton.x1
    else if b = "x2" then button == MButton.x2
    else false
  | _ => false

/-- The dispatch-relevant fields of `HotkeyManager`. -/
structure HKState where
  current_hotkey : HotkeyConfig
  is_pressed : Bool
  pressed_keys : List PKey
  is_setting_hotkey : Bool
  deriving DecidableEq

/-- Logical press / release edges, i.e. the `on_hotkey_press` /
`on_hotkey_release` callback invocations. -/
inductive Edge where
  | press | release
  deriving DecidableEq

/-- `self.pressed_keys.add(key)`: Python set insertion. -/
def insert_key (l : List PKey) (k : PKey) : List PKey :=
  if l.contains k then l else k :: l

/-- `HotkeyManager._on_key_press` (hotkey_manager.py lines 78-91): record
the key as held, then fire a press edge only if the binding matches and no
press edge is currently outstanding. -/
def on_key_press (s : HKState) (key : PKey) : HKState × List Edge :=
  if s.is_setting_hotkey then (s, [])
  else
    let s1 := { s with pressed_keys := insert_key s.pressed_keys key }
    if matches_key s1.current_hotkey s1.pressed_keys key then
      if !s1.is_pressed then ({ s1 with is_pressed := true }, [Edge.press])
      else (s1, [])
    else (s1, [])

/-- `HotkeyManager._on_key_release` (lines 93-106): discard the key from
the held set (`pressed_keys.discard`), then fire a release edge only if
the binding matches and a press edge is outstanding. -/
def on_key_release (s : HKState) (key : PKey) : HKState × List Edge :=
  if s.is_setting_hotkey then (s, [])
  else
    let s1 := { s with pressed_keys := s.pressed_keys.erase key }
    if matches_key s1.current_hotkey s1.pressed_keys key then
      if s1.is_pressed then ({ s1 with is_pressed := false }, [Edge.release])
      else (s1, [])
    else (s1, [])

/-- `HotkeyManager._on_mouse_click` (lines 108-122): one callback handles
both halves, keyed by the `pressed` flag. -/
def on_mouse_click (s : HKState) (button : MButton) (pressed : Bool) : HKState × List Edge :=
  if s.is_setting_hotkey then (s, [])
  else
    if matches_mouse_button s.current_hotkey button then
      if pressed && !s.is_pressed then ({ s with is_pressed := true }, [Edge.press])
      else if !pressed && s.is_pressed then ({ s with is_pressed := false }, [Edge.release])
      else (s, [])
    else (s, [])

/-- A raw OS input event as delivered to the hook callbacks. -/
inductive RawEvent where
  | keyPress (k : PKey)
  | keyRelease (k : PKey)
  | mouseClick (b : MButton) (pressed : Bool)
  deriving DecidableEq

/-- Dispatch of one raw event to the matching hook callback. -/
def step (s : HKState) (e : RawEvent) : HKState × List Edge :=
  match e with
  | RawEvent.keyPress k => on_key_press s k
  | RawEvent.keyRelease k => on_key_release s k
  | RawEvent.mouseClick b p => on_mouse_click s b p

/-- Processing a whole raw event sequence, collecting the emitted edges. -/
def runEvents (s : HKState) : List RawEvent → HKState × List Edge
  | [] => (s, [])
  | e :: es =>
    ((runEvents (step s e).1 es).1, (step s e).2 ++ (runEvents (step s e).1 es).2)

/-- `HotkeyManager.set_hotkey` (hotkey_manager.py lines 71-76): replaces
the binding and clears the `is_pressed` flag (the listener restart does
not change dispatch state). -/
def set_hotkey (s : HKState) (cfg : HotkeyConfig) : HKState :=
  { s with current_hotkey := cfg, is_pressed := false }

/-- The manager state right after `__init__` / with a given binding and
nothing held. -/
def init_state (cfg : HotkeyConfig) : HKState :=
  { current_hotkey := cfg, is_pressed := false, pressed_keys := [], is_setting_hotkey := false }

/-- Edge-alternation discipline: starting from hold-state `b`, a press edge
is legal only when not held and a release edge only when held. -/
def alternates : Bool → List Edge → Bool
  | _, [] => true
  | b, Edge.press :: r => !b && alternates true r
  | b, Edge.release :: r => b && alternates false r

/- ============================================================ -/
/- THEOREMS -/
/- ============================================================ -/

/-- Each hook callback emits at most one edge, and the edge kind is tied to
the `is_pressed` transition: a press edge only from unpressed to pressed, a
release edge only from pressed to unpressed. -/
theorem step_edge_cases (s : HKState) (e : RawEvent) :
    ((step s e).2 = [] ∧ (step s e).1.is_pressed = s.is_pressed) ∨
    ((step s e).2 = [Edge.press] ∧ s.is_pressed = false ∧ (step s e).1.is_pressed = true) ∨
    ((step s e).2 = [Edge.release] ∧ s.is_pressed = true ∧ (step s e).1.is_pressed = false) := by
  rcases e with k | k | ⟨b, p⟩
  case keyPress =>
    by_cases hset : s.is_setting_hotkey
    · exact Or.inl (by simp [step, on_key_press, hset])
    · by_cases hm : matches_key s.current_hotkey (insert_key s.pressed_keys k) k
      · by_cases hp : s.is_pressed
        · exact Or.inl (by simp [step, on_key_press, hset, hm, hp])
        · exact Or.inr (Or.inl (by simp [step, on_key_press, hset, hm, hp, Bool.eq_false_iff]))
      · exact Or.inl (by simp [step, on_key_press, hset, hm])
  case keyRelease =>
    by_cases hset : s.is_setting_hotkey
    · exact Or.inl (by simp [step, on_key_release, hset])
    · by_cases hm : matches_key s.current_hotkey (s.pressed_keys.erase k) k
      · by_cases hp : s.is_pressed
        · exact Or.inr (Or.inr (by simp [step, on_key_release, hset, hm, hp]))
        · exact Or.inl (by simp [step, on_key_release, hset, hm, hp])
      · exact Or.inl (by simp [step, on_key_release, hset, hm])
  case mouseClick =>
    by_cases hset : s.is_setting_hotkey
    · exact Or.inl (by simp [step, on_mouse_click, hset])
    · by_cases hmb : matches_mouse_button s.current_hotkey b
      · cases p
        · by_cases hp : s.is_pressed
          · exact Or.inr (Or.inr (by simp [step, on_mouse_click, hset, hmb, hp]))
          · exact Or.inl (by simp [step, on_mouse_click, hset, hmb, hp])
        · by_cases hp : s.is_pressed
          · exact Or.inl (by simp [step, on_mouse_click, hset, hmb, hp])
          · exact Or.inr (Or.inl
              (by simp [step, on_mouse_click, hset, hmb, hp, Bool.eq_false_iff]))
      · exact Or.inl (by simp [step, on_mouse_click, hset, hmb])

/-- C9: for every filesystem, directory layout and model identifier,
`is_model_available` answers true exactly when `get_model_path` resolves a
path (both consult the bundled-models path, the cache path and the cache
`-v3` path), and `get_model_path` prefers the bundled models directory
over the cache. -/
theorem available_iff_path (fs : List String) (d : Dirs) (m : String) :
    (is_model_available fs d m = (get_model_path fs d m).isSome) ∧
    (fs.contains (local_path d m) = true →
      get_model_path fs d m = some (local_path d m)) := by
  constructor
  · by_cases h1 : local_path d m ∈ fs <;>
      by_cases h2 : cache_path d m ∈ fs <;>
      by_cases h3 : cache_path_v3 d m ∈ fs <;>
      simp [is_model_available, get_model_path, h1, h2, h3]
  · intro h
    have h' : local_path d m ∈ fs := by simpa using h
    simp [get_model_path, h']

/-- C9 witness: on a concrete one-file filesystem holding only the bundled
copy of "small", availability and path resolution agree and the bundled
path is returned. -/
theorem available_iff_path_witness :
    (is_model_available ["app/models/small.pt"] ⟨"app/models", "cache"⟩ "small"
      = (get_model_path ["app/models/small.pt"] ⟨"app/models", "cache"⟩ "small").isSome) ∧
    (["app/models/small.pt"].contains (local_path ⟨"app/models", "cache"⟩ "small") = true →
      get_model_path ["app/models/small.pt"] ⟨"app/models", "cache"⟩ "small"
        = some (local_path ⟨"app/models", "cache"⟩ "small")) :=
  available_iff_path ["app/models/small.pt"] ⟨"app/models", "cache"⟩ "small"

/-- C1 counterexample: with the "tiny" model loaded (handle 0), a failing
reload leaves `whisper_model = None`, not the previous handle —
`reload_model` deletes the old model before attempting the new load, so a
failed swap does destroy the working model. -/
theorem reload_model_failure_destroys_previous :
    ¬ ((reload_model (some 0) LoadOutcome.failure).1 = some 0) := by decide

/-- C1 amended: `reload_model` releases the previous handle first — the
release event is the head of the trace, before any readiness event — and
a failed reload leaves no model loaded (`None`), while a successful one
installs exactly the new handle. -/
theorem reload_model_releases_first (prev : Option ℕ) (h : ℕ) (out : LoadOutcome)
    (hp : prev = some h) :
    ((reload_model prev out).1 = match out with
      | LoadOutcome.success m => some m
      | LoadOutcome.failure => none) ∧
    ((reload_model prev out).2.head? = some (MEvent.released h)) := by
  subst hp
  cases out <;> simp [reload_model]

/-- C1 amended, witness: concrete failing reload from handle 0. -/
theorem reload_model_releases_first_witness :
    ((reload_model (some 0) LoadOutcome.failure).1 = match LoadOutcome.failure with
      | LoadOutcome.success m => some m
      | LoadOutcome.failure => none) ∧
    ((reload_model (some 0) LoadOutcome.failure).2.head? = some (MEvent.released 0)) :=
  reload_model_releases_first (some 0) 0 LoadOutcome.failure rfl

/-- C2: `start_recording` returns false and leaves the state unchanged when
a recording is active or the input is muted (in particular a second call
without an intervening stop returns false and opens no second stream, and
a muted call never activates recording); otherwise it sets the active
flag, starts one capture stream and returns true. -/
theorem start_recording_guard (s : CaptureState) :
    ((s.is_recording || s.is_muted) = true →
      (start_recording s).1 = false ∧ (start_recording s).2.1 = s) ∧
    (s.is_muted = true → ((start_recording s).2.1).is_recording = s.is_recording) ∧
    ((s.is_recording || s.is_muted) = false →
      (start_recording s).1 = true ∧
      ((start_recording s).2.1).is_recording = true ∧
      ((start_recording s).2.1).streams = s.streams + 1) ∧
    ((s.is_recording || s.is_muted) = false →
      (start_recording ((start_recording s).2.1)).1 = false ∧
      (start_recording ((start_recording s).2.1)).2.1 = (start_recording s).2.1) := by
  refine ⟨?_, ?_, ?_, ?_⟩
  · intro h; simp [start_recording, h]
  · intro h; simp [start_recording, h]
  · intro h; simp [start_recording, h]
  · intro h; simp [start_recording, h]

/-- C2 witness: from the idle unmuted state the first call succeeds and the
second call fails. -/
theorem start_recording_guard_witness :
    (start_recording ⟨false, false, 0⟩).1 = true ∧
    (start_recording ((start_recording ⟨false, false, 0⟩).2.1)).1 = false :=
  ⟨((start_recording_guard ⟨false, false, 0⟩).2.2.1 rfl).1,
   ((start_recording_guard ⟨false, false, 0⟩).2.2.2 rfl).1⟩

/-- C3 counterexample: a recorded buffer with zero captured frames does skip
inference, but it reports nothing at all — the status list is empty, so no
SilenceResult-equivalent outcome reaches the status channel (the claimed
report does not happen; the outcome is silent). -/
theorem record_audio_empty_reports_nothing :
    (record_audio [] 0 (SaveRun.infer (InferOutcome.ok "")) true
      ⟨none, none, []⟩).2.statuses = [] ∧
    inference_invoked [] (SaveRun.infer (InferOutcome.ok "")) true = false := by
  decide

/-- C3 amended: for every recorded buffer with zero captured frames the
pipeline does not invoke inference and does not throw, but it also emits
no status and no transcript — the zero-frame case is dropped silently
(`if frames:` in `_record_audio`), with no SilenceResult-equivalent
report. -/
theorem record_audio_empty_skips (frames : List (List ℕ)) (newf : ℕ) (run : SaveRun)
    (hasModel : Bool) (s : PipeState) (h : frames = []) :
    record_audio frames newf run hasModel s = (s, ⟨[], []⟩) ∧
    inference_invoked frames run hasModel = false := by
  subst h
  simp [record_audio, inference_invoked]

/-- C3 amended, witness: concrete empty buffer. -/
theorem record_audio_empty_skips_witness :
    record_audio [] 1 SaveRun.writeFail false ⟨none, none, []⟩ = (⟨none, none, []⟩, ⟨[], []⟩) ∧
    inference_invoked [] SaveRun.writeFail false = false :=
  record_audio_empty_skips [] 1 SaveRun.writeFail false ⟨none, none, []⟩ rfl

/-- C4: with a model and a scratch file present, a transcription whose
trimmed text is empty reports exactly the plain status "No speech
detected" and fires no transcript callback, while a non-empty trimmed
text reports "Transcription ready" and fires the transcript callback
exactly once, with the trimmed text. -/
theorem transcribe_text_dispatch (raw : String) (s : PipeState) (p : ℕ)
    (hp : s.temp_file_path = some p) :
    (pyStrip raw = "" →
      (transcribe_audio true (InferOutcome.ok raw) s).2.statuses = ["No speech detected"] ∧
      (transcribe_audio true (InferOutcome.ok raw) s).2.transcripts = []) ∧
    (pyStrip raw ≠ "" →
      (transcribe_audio true (InferOutcome.ok raw) s).2.statuses = ["Transcription ready"] ∧
      (transcribe_audio true (InferOutcome.ok raw) s).2.transcripts = [pyStrip raw]) := by
  have hn : s.temp_file_path.isNone = false := by simp [hp]
  constructor <;> intro h <;> simp [transcribe_audio, hn, h]

/-- C4 witness: whitespace-only raw text yields the no-speech status and no
transcript callback. -/
theorem transcribe_text_dispatch_witness :
    (transcribe_audio true (InferOutcome.ok "  ") ⟨some 0, some 0, [0]⟩).2.statuses
      = ["No speech detected"] ∧
    (transcribe_audio true (InferOutcome.ok "  ") ⟨some 0, some 0, [0]⟩).2.transcripts = [] :=
  (transcribe_text_dispatch "  " ⟨some 0, some 0, [0]⟩ 0 rfl).1 (by decide)

/-- Every exit of `_transcribe_audio` runs the `finally` cleanup: the
resulting state is always `cleanup_temp_file` of the input state. -/
theorem transcribe_audio_fst (hm : Bool) (inf : InferOutcome) (s : PipeState) :
    (transcribe_audio hm inf s).1 = cleanup_temp_file s := by
  unfold transcribe_audio
  split
  · rfl
  · cases inf with
    | err => rfl
    | ok raw =>
      dsimp only
      split <;> rfl

/-- C5 counterexample: fresh state, no scratch file; `_save_audio_file`
creates scratch file 0 and then the WAV write fails — the exception
handler only reports the error, so the scratch file and its descriptor
are left behind (not cleaned up on this exit path). -/
theorem save_audio_write_failure_leaks :
    ((save_audio_file 0 SaveRun.writeFail true ⟨none, none, []⟩).1.temp_fd = some 0) ∧
    ((save_audio_file 0 SaveRun.writeFail true ⟨none, none, []⟩).1.temp_file_path = some 0) ∧
    ((save_audio_file 0 SaveRun.writeFail true ⟨none, none, []⟩).1.disk = [0]) := by
  decide

/-- C5 amended: whenever the scratch WAV is written successfully, every exit
of the transcription attempt — success, empty result, inference failure or
missing model — closes the descriptor, clears the path and removes the
fresh scratch file from disk; but when the WAV write itself fails, the
scratch file stays registered (it is only removed by the next save's
initial cleanup). -/
theorem save_audio_cleanup (newf : ℕ) (inf : InferOutcome) (hasModel : Bool)
    (s : PipeState) (hfresh : newf ∉ s.disk) :
    ((save_audio_file newf (SaveRun.infer inf) hasModel s).1.temp_fd = none ∧
     (save_audio_file newf (SaveRun.infer inf) hasModel s).1.temp_file_path = none ∧
     newf ∉ (save_audio_file newf (SaveRun.infer inf) hasModel s).1.disk) ∧
    (save_audio_file newf SaveRun.writeFail hasModel s).1.temp_file_path = some newf := by
  have hdisk : newf ∉ (cleanup_temp_file s).disk := by
    intro hmem
    apply hfresh
    unfold cleanup_temp_file at hmem
    cases hpath : s.temp_file_path with
    | none => simpa [hpath] using hmem
    | some p => exact List.mem_of_mem_erase (by simpa [hpath] using hmem)
  refine ⟨?_, rfl⟩
  have h1 : (save_audio_file newf (SaveRun.infer inf) hasModel s).1
      = cleanup_temp_file ⟨some newf, some newf, newf :: (cleanup_temp_file s).disk⟩ := by
    simp [save_audio_file, transcribe_audio_fst]
  rw [h1]
  refine ⟨rfl, rfl, ?_⟩
  simpa [cleanup_temp_file, List.erase_cons_head] using hdisk

/-- C5 amended, witness: concrete successful save-and-transcribe run from a
fresh state cleans the scratch file; concrete write failure leaves it. -/
theorem save_audio_cleanup_witness :
    ((save_audio_file 3 (SaveRun.infer (InferOutcome.ok "hello")) true
        ⟨none, none, []⟩).1.temp_fd = none ∧
     (save_audio_file 3 (SaveRun.infer (InferOutcome.ok "hello")) true
        ⟨none, none, []⟩).1.temp_file_path = none ∧
     (3 : ℕ) ∉ (save_audio_file 3 (SaveRun.infer (InferOutcome.ok "hello")) true
        ⟨none, none, []⟩).1.disk) ∧
    (save_audio_file 3 SaveRun.writeFail true ⟨none, none, []⟩).1.temp_file_path = some 3 :=
  save_audio_cleanup 3 (InferOutcome.ok "hello") true ⟨none, none, []⟩ (by decide)

/-- A failure-free enumeration pass collects exactly the input-capable
devices in order. -/
theorem enum_from_none (infos : List DeviceInfo) (i : ℕ) :
    enum_from infos i none = (input_devices_from infos i, false) := by
  induction infos generalizing i with
  | nil => rfl
  | cons info rest ih =>
    simp only [enum_from, input_devices_from, ih]
    split <;> simp

/-- An enumeration pass whose `(k+1)`-st info fetch raises collects exactly
the input-capable devices among the first `k` entries. -/
theorem enum_from_fail (infos : List DeviceInfo) (i k : ℕ) (hk : k < infos.length) :
    enum_from infos i (some k) = (input_devices_from (infos.take k) i, true) := by
  induction infos generalizing i k with
  | nil => simp at hk
  | cons info rest ih =>
    cases k with
    | zero => simp [enum_from, input_devices_from]
    | succ k =>
      have hk' : k < rest.length := by simpa using hk
      simp only [enum_from, List.take_succ_cons, input_devices_from, ih (i + 1) k hk']
      split <;> simp

/-- A device table with no input-capable entries yields no devices. -/
theorem input_devices_from_all_zero (infos : List DeviceInfo) (i : ℕ)
    (h : ∀ d ∈ infos, d.maxInputChannels = 0) :
    input_devices_from infos i = [] := by
  induction infos generalizing i with
  | nil => rfl
  | cons info rest ih =>
    have h0 : info.maxInputChannels = 0 := h info (by simp)
    simp [input_devices_from, h0, ih (i + 1) (fun d hd => h d (by simp [hd]))]

/-- C8 counterexample: the OS has an input-capable device at index 0 and
the info fetch for index 1 raises — `get_audio_devices` signals the error
via status but returns the non-empty partial list `[device 0]`, not the
empty sequence the claim requires on enumeration failure. -/
theorem get_audio_devices_partial_on_failure :
    (get_audio_devices true [⟨"mic", 2⟩, ⟨"aux", 1⟩] (some 1)).1 = [⟨0, "mic", 2⟩] ∧
    (get_audio_devices true [⟨"mic", 2⟩, ⟨"aux", 1⟩] (some 1)).2
      = ["Device enumeration error"] ∧
    (get_audio_devices true [⟨"mic", 2⟩, ⟨"aux", 1⟩] (some 1)).1 ≠ [] := by
  decide

/-- C8 amended: without a failure, `get_audio_devices` returns the
input-capable devices in OS enumeration order (empty, without raising, on
a machine with zero input devices); on an enumeration failure it never
raises and signals the error via the status channel, returning the
devices enumerated before the failure — empty when the failure precedes
any device (e.g. the PyAudio constructor fails), but possibly non-empty
otherwise. -/
theorem get_audio_devices_amended (infos zs : List DeviceInfo) (k : ℕ)
    (hk : k < infos.length) (hz : ∀ d ∈ zs, d.maxInputChannels = 0) :
    (get_audio_devices true infos none).1 = input_devices_from infos 0 ∧
    (get_audio_devices true infos none).2 = [] ∧
    (get_audio_devices true zs none).1 = [] ∧
    (get_audio_devices true infos (some k)).1 = input_devices_from (infos.take k) 0 ∧
    (get_audio_devices true infos (some k)).2 = ["Device enumeration error"] ∧
    (get_audio_devices false infos (some k)).1 = [] ∧
    (get_audio_devices false infos (some k)).2 = ["Device enumeration error"] := by
  refine ⟨?_, ?_, ?_, ?_, ?_, rfl, rfl⟩
  · simp [get_audio_devices, enum_from_none]
  · simp [get_audio_devices, enum_from_none]
  · simp [get_audio_devices, enum_from_none, input_devices_from_all_zero zs 0 hz]
  · simp [get_audio_devices, enum_from_fail infos 0 k hk]
  · simp [get_audio_devices, enum_from_fail infos 0 k hk]

/-- C8 amended, witness: one input device, zero-device table, and a failure
before the first fetch. -/
theorem get_audio_devices_amended_witness :
    (get_audio_devices true [⟨"mic", 2⟩] none).1 = input_devices_from [⟨"mic", 2⟩] 0 ∧
    (get_audio_devices true [⟨"mic", 2⟩] none).2 = [] ∧
    (get_audio_devices true [] none).1 = [] ∧
    (get_audio_devices true [⟨"mic", 2⟩] (some 0)).1
      = input_devices_from ([⟨"mic", 2⟩].take 0) 0 ∧
    (get_audio_devices true [⟨"mic", 2⟩] (some 0)).2 = ["Device enumeration error"] ∧
    (get_audio_devices false [⟨"mic", 2⟩] (some 0)).1 = [] ∧
    (get_audio_devices false [⟨"mic", 2⟩] (some 0)).2 = ["Device enumeration error"] :=
  get_audio_devices_amended [⟨"mic", 2⟩] [] 0 (by decide) (by intro d hd; cases hd)

/-- C10: the numeric settings setters clamp out-of-range arguments, so after
any call the stored values satisfy the fixed range invariants:
`type_delay` in [0, 5], `whisper_temperature` in [0, 1],
`whisper_beam_size` in [1, 10], `whisper_no_speech_threshold` in [0, 1]. -/
theorem setters_clamp (s : Settings) (d t th : ℚ) (b : ℤ) :
    (0 ≤ (set_type_delay s d).type_delay ∧ (set_type_delay s d).type_delay ≤ 5) ∧
    (0 ≤ (set_whisper_temperature s t).whisper_temperature ∧
      (set_whisper_temperature s t).whisper_temperature ≤ 1) ∧
    (1 ≤ (set_whisper_beam_size s b).whisper_beam_size ∧
      (set_whisper_beam_size s b).whisper_beam_size ≤ 10) ∧
    (0 ≤ (set_whisper_no_speech_threshold s th).whisper_no_speech_threshold ∧
      (set_whisper_no_speech_threshold s th).whisper_no_speech_threshold ≤ 1) := by
  refine ⟨⟨le_max_left _ _, ?_⟩, ⟨le_max_left _ _, ?_⟩,
    ⟨le_max_left _ _, ?_⟩, ⟨le_max_left _ _, ?_⟩⟩
  · exact max_le (by norm_num) (min_le_left _ _)
  · exact max_le (by norm_num) (min_le_left _ _)
  · exact max_le (by norm_num) (min_le_left _ _)
  · exact max_le (by norm_num) (min_le_left _ _)

/-- Running any raw event sequence emits edges consistent with the
edge-alternation discipline relative to the starting hold-state. -/
theorem runEvents_alternates (es : List RawEvent) (s : HKState) :
    alternates s.is_pressed (runEvents s es).2 = true := by
  induction es generalizing s with
  | nil => rfl
  | cons e es ih =>
    have h := step_edge_cases s e
    simp only [runEvents]
    rcases h with ⟨h1, h2⟩ | ⟨h1, h2, h3⟩ | ⟨h1, h2, h3⟩
    · rw [h1]
      have := ih (step s e).1
      rw [h2] at this
      simpa using this
    · rw [h1, h2]
      have := ih (step s e).1
      rw [h3] at this
      simpa [alternates] using this
    · rw [h1, h2]
      have := ih (step s e).1
      rw [h3] at this
      simpa [alternates] using this

/-- C6 counterexample: binding Ctrl+A; the user presses Ctrl, presses A (one
press edge fires), then releases Ctrl before A.  Neither release matches —
releasing Ctrl fails the main-key test and releasing A then fails the
modifier-held test — so the completed physical hold ends with zero release
edges, refuting "exactly one release edge per release". -/
theorem combo_release_loses_edge :
    (runEvents (init_state (HotkeyConfig.comboKey "ctrl" "a"))
      [RawEvent.keyPress PKey.ctrl_l, RawEvent.keyPress (PKey.char 'a'),
       RawEvent.keyRelease PKey.ctrl_l, RawEvent.keyRelease (PKey.char 'a')]).2
      = [Edge.press] := by decide

/-- C6 amended: for every binding and raw event sequence the emitted edges
obey the alternation discipline — never two press edges without an
intervening release edge and never a release edge without a preceding
press edge — and a repeated OS press event delivered while the binding is
held emits nothing; but a release edge per physical release is not
guaranteed (see the combo counterexample). -/
theorem hotkey_edge_discipline (cfg : HotkeyConfig) (es : List RawEvent)
    (s : HKState) (k : PKey) (hp : s.is_pressed = true) :
    alternates false (runEvents (init_state cfg) es).2 = true ∧
    (step s (RawEvent.keyPress k)).2 = [] := by
  constructor
  · have h := runEvents_alternates es (init_state cfg)
    simpa [init_state] using h
  · by_cases hset : s.is_setting_hotkey
    · simp [step, on_key_press, hset]
    · simp [step, on_key_press, hset, hp]

/-- C6 amended, witness: a single matching press from idle emits one legal
press edge, and a repeated press in a held state emits nothing. -/
theorem hotkey_edge_discipline_witness :
    alternates false (runEvents (init_state (HotkeyConfig.singleKey "space"))
      [RawEvent.keyPress PKey.space]).2 = true ∧
    (step ⟨HotkeyConfig.singleKey "space", true, [PKey.space], false⟩
      (RawEvent.keyPress PKey.space)).2 = [] :=
  hotkey_edge_discipline (HotkeyConfig.singleKey "space") [RawEvent.keyPress PKey.space]
    ⟨HotkeyConfig.singleKey "space", true, [PKey.space], false⟩ PKey.space rfl

/-- C7: `set_hotkey` replaces the binding and resets the press-tracking
flag to released, so afterwards no event can emit a release edge (hence no
spurious edge for the old binding), and the next key press emits a press
edge exactly when it matches the new binding — a stale pressed flag never
suppresses it. -/
theorem set_hotkey_resets (s : HKState) (cfg : HotkeyConfig) (e : RawEvent) (k : PKey)
    (hset : s.is_setting_hotkey = false) :
    (set_hotkey s cfg).current_hotkey = cfg ∧
    (set_hotkey s cfg).is_pressed = false ∧
    Edge.release ∉ (step (set_hotkey s cfg) e).2 ∧
    (step (set_hotkey s cfg) (RawEvent.keyPress k)).2 =
      (if matches_key cfg (insert_key s.pressed_keys k) k then [Edge.press] else []) := by
  refine ⟨rfl, rfl, ?_, ?_⟩
  · rcases step_edge_cases (set_hotkey s cfg) e with ⟨h1, _⟩ | ⟨h1, _, _⟩ | ⟨_, h2, _⟩
    · rw [h1]; simp
    · rw [h1]; simp
    · simp [set_hotkey] at h2
  · by_cases hm : matches_key cfg (insert_key s.pressed_keys k) k
    · simp [step, on_key_press, set_hotkey, hset, hm]
    · simp [step, on_key_press, set_hotkey, hset, hm]

/-- C7 witness: rebinding from Space (currently held and fired) to the key
A mid-press, then releasing Space and pressing A. -/
theorem set_hotkey_resets_witness :
    (set_hotkey ⟨HotkeyConfig.singleKey "space", true, [PKey.space], false⟩
      (HotkeyConfig.singleKey "a")).current_hotkey = HotkeyConfig.singleKey "a" ∧
    (set_hotkey ⟨HotkeyConfig.singleKey "space", true, [PKey.space], false⟩
      (HotkeyConfig.singleKey "a")).is_pressed = false ∧
    Edge.release ∉ (step (set_hotkey ⟨HotkeyConfig.singleKey "space", true,
      [PKey.space], false⟩ (HotkeyConfig.singleKey "a"))
      (RawEvent.keyRelease PKey.space)).2 ∧
    (step (set_hotkey ⟨HotkeyConfig.singleKey "space", true, [PKey.space], false⟩
      (HotkeyConfig.singleKey "a")) (RawEvent.keyPress (PKey.char 'a'))).2 =
      (if matches_key (HotkeyConfig.singleKey "a")
        (insert_key [PKey.space] (PKey.char 'a')) (PKey.char 'a')
        then [Edge.press] else []) :=
  set_hotkey_resets ⟨HotkeyConfig.singleKey "space", true, [PKey.space], false⟩
    (HotkeyConfig.singleKey "a") (RawEvent.keyRelease PKey.space) (PKey.char 'a') rfl
